import Mathlib

/-!
Shallow embedding of the QjNotebook retrieval-and-synthesis core
(`backend/app/services`): the rerankers, retriever factory, LLM factory and
the LangChain RAG pipeline, together with theorems checking the
natural-language specification against this embedding.

Modelling conventions:
* Python floats become `Rat`; exact rational arithmetic stands in for IEEE
  floating point on the (finite, small) score computations the claims range
  over.
* LangChain `Document` objects become the `Document` structure below; the
  metadata keys actually read or written by the embedded code (`source`,
  `score`, `mmr_rank`, `original_score`) become optional fields.
* Fallible calls (LLM invocations, vector-store searches, constructor
  probes) are modelled as `Except String`-valued inputs; a Python `raise`
  is an `Except.error`.
* The TF-IDF + cosine similarity computation of `MMRReranker` (numpy /
  sklearn) is not rational-valued (cosine needs square roots), so the MMR
  embedding is parameterized by the query-similarity list `qsims` and the
  pairwise-similarity function `sim` that the sklearn calls would produce;
  the greedy selection logic itself is embedded faithfully.
-/

/-! ## Data model -/

/-- The metadata dictionary of a LangChain `Document`, restricted to the keys
the embedded code reads or writes. -/
structure Metadata where
  source : Option String := none
  score : Option Rat := none
  mmr_rank : Option Nat := none
  original_score : Option Rat := none
deriving DecidableEq, Repr

/-- A LangChain `Document`: page content plus metadata. -/
structure Document where
  page_content : String
  metadata : Metadata := {}
deriving DecidableEq, Repr

/-- `doc.metadata.get('score', 0.0)`. -/
def Document.relevanceScore (d : Document) : Rat :=
  d.metadata.score.getD 0

def defaultDocument : Document := { page_content := "" }

/-! ## Python list-ordering primitives -/

/-- Python truthiness of an `Optional[int]` argument (`if top_k:`):
`None` and `0` are falsy. -/
def pyTruthy : Option Nat → Bool
  | none => false
  | some n => n != 0

/-- Python `top_k or n` for `top_k : Optional[int]`. -/
def pyOrElse (top_k : Option Nat) (n : Nat) : Nat :=
  match top_k with
  | none => n
  | some 0 => n
  | some k => k

/-- Stable insertion (descending by key): `x` is placed before the first
element whose key is `≤ key x`.  Matches the stability of Python's
`list.sort(key=..., reverse=True)` when used by `stableSortDescBy`. -/
def insertDescBy (key : α → Rat) (x : α) : List α → List α
  | [] => [x]
  | y :: ys => if key y ≤ key x then x :: y :: ys else y :: insertDescBy key x ys

/-- Stable sort, descending by key: the embedding of Python's
`list.sort(key=..., reverse=True)`. -/
def stableSortDescBy (key : α → Rat) : List α → List α
  | [] => []
  | x :: xs => insertDescBy key x (stableSortDescBy key xs)

/-- The scan performed by Python's `max(pairs, key=lambda x: x[1])` and by
`np.argmax`: keep the current best, replace it only on a strictly greater
key, so the first maximal element wins. -/
def pyMax2 : (Nat × Rat) → List (Nat × Rat) → (Nat × Rat)
  | b, [] => b
  | b, x :: xs => pyMax2 (if x.2 > b.2 then x else b) xs

/-- Pair every index with its score. -/
def idxPairs (f : Nat → Rat) (l : List Nat) : List (Nat × Rat) :=
  l.map (fun i => (i, f i))

/-- First index in `l` attaining the maximal value of `f`, computed by the
Python/numpy scan (`max(..., key=...)` / `np.argmax`). -/
def firstMaxIdx (f : Nat → Rat) : List Nat → Nat
  | [] => 0
  | r :: rs => (pyMax2 (r, f r) (idxPairs f rs)).1

/-- `np.argmax(query_similarities)`: first index of the maximum. -/
def np_argmax (qs : List Rat) : Nat :=
  firstMaxIdx (fun i => qs.getD i 0) (List.range qs.length)

/-! ## BasicReranker (`reranker.py`) -/

/-- `BasicReranker.rerank_documents`: score each document by its `score`
metadata (default 0.0), stable-sort descending, then truncate iff `top_k`
is truthy. -/
def BasicReranker.rerank_documents (query : String) (documents : List Document)
    (top_k : Option Nat) : List Document :=
  let scored_docs := documents.map (fun doc => (doc, doc.metadata.score.getD 0))
  let sorted_docs := stableSortDescBy Prod.snd scored_docs
  let reranked := sorted_docs.map Prod.fst
  if pyTruthy top_k then reranked.take (top_k.getD 0) else reranked

/-! ## MMRReranker (`reranker.py`) -/

/-- `np.max(cosine_similarity(current_vec, selected_vecs))` with the
`if selected_indices:` guard: 0.0 on an empty selection. -/
def maxSimToSelected (sim : Nat → Nat → Rat) (i : Nat) (selected : List Nat) : Rat :=
  match selected with
  | [] => 0
  | s :: rest => rest.foldl (fun a j => max a (sim i j)) (sim i s)

/-- `mmr_score = lambda_mult * query_sim - (1 - lambda_mult) * max_sim_to_selected`. -/
def mmrScore (lam : Rat) (qsim : Nat → Rat) (sim : Nat → Nat → Rat)
    (selected : List Nat) (i : Nat) : Rat :=
  lam * qsim i - (1 - lam) * maxSimToSelected sim i selected

/-- The `while len(selected_indices) < target_count and remaining_indices:`
loop: score every remaining index, pick the first maximal one (Python
`max(..., key=...)`), append it to the selection and remove it from
`remaining` (`list.remove` removes the first occurrence). -/
def mmrLoop (lam : Rat) (qsim : Nat → Rat) (sim : Nat → Nat → Rat) (target : Nat)
    (selected remaining : List Nat) : List Nat :=
  match remaining with
  | [] => selected
  | r :: rs =>
    if h : selected.length < target then
      let best := firstMaxIdx (mmrScore lam qsim sim selected) (r :: rs)
      mmrLoop lam qsim sim target (selected ++ [best]) ((r :: rs).erase best)
    else selected
termination_by target - selected.length
decreasing_by simp [List.length_append]; omega

/-- Seed with `np.argmax(query_similarities)`, then run the MMR loop with
`target_count = min(top_k or len(documents), len(documents))` over
`remaining_indices = list(range(n))` minus the seed. -/
def mmrSelectionIndices (lam : Rat) (top_k : Option Nat) (qsims : List Rat)
    (sim : Nat → Nat → Rat) (n : Nat) : List Nat :=
  let first_idx := np_argmax qsims
  let target_count := min (pyOrElse top_k n) n
  mmrLoop lam (fun i => qsims.getD i 0) sim target_count [first_idx]
    ((List.range n).erase first_idx)

/-- The metadata update `doc.metadata['mmr_rank'] = i + 1;
doc.metadata['original_score'] = query_similarities[idx]`. -/
def mmrAnnotate (doc : Document) (rank : Nat) (qsim : Rat) : Document :=
  { doc with metadata :=
      { doc.metadata with mmr_rank := some rank, original_score := some qsim } }

/-- `reranked_docs = [documents[i] for i in selected_indices]` followed by the
rank / original-score annotation loop. -/
def listMapAnnotate (documents : List Document) (qsims : List Rat)
    (idxs : List Nat) : List Document :=
  idxs.enum.map (fun p => mmrAnnotate (documents.getD p.2 defaultDocument) (p.1 + 1)
    (qsims.getD p.2 0))

/-- `MMRReranker.rerank_documents` on the non-exceptional path: lists of at
most one document are returned unchanged; otherwise the MMR greedy selection
runs over the similarity data (`qsims`, `sim`) computed by the TF-IDF /
cosine-similarity calls, and the selected documents are returned annotated. -/
def MMRReranker.rerank_documents (lambda_mult : Rat) (qsims : List Rat)
    (sim : Nat → Nat → Rat) (query : String) (documents : List Document)
    (top_k : Option Nat) : List Document :=
  if documents.length ≤ 1 then documents
  else listMapAnnotate documents qsims
    (mmrSelectionIndices lambda_mult top_k qsims sim documents.length)

/-! ## The claim-side (spec-worded) MMR greedy selection, for comparison -/

/-- Maximum of `f` over a list of indices (`0` on the empty list, unused). -/
def listMaxBy (f : Nat → Rat) : List Nat → Rat
  | [] => 0
  | r :: rs => rs.foldl (fun a i => max a (f i)) (f r)

/-- "the one maximizing ..., breaking ties by first occurrence in input
order": the first index of `l` whose score equals the maximum. -/
def specFirstMax (f : Nat → Rat) (l : List Nat) : Nat :=
  (l.find? (fun i => decide (f i = listMaxBy f l))).getD 0

/-- The claim's iterative step: until `target` passages are selected, pick
among the unselected passages (in input order) the first one maximizing the
MMR score. -/
def specGreedyLoop (lam : Rat) (qsim : Nat → Rat) (sim : Nat → Nat → Rat)
    (n target : Nat) (selected : List Nat) : List Nat :=
  let unselected := (List.range n).filter (fun i => decide (i ∉ selected))
  if h : selected.length < target ∧ unselected ≠ [] then
    specGreedyLoop lam qsim sim n target
      (selected ++ [specFirstMax (mmrScore lam qsim sim selected) unselected])
  else selected
termination_by target - selected.length
decreasing_by simp [List.length_append]; omega

/-- The claim's description of MMR selection: seed with the first passage of
maximal query similarity, then greedily select by MMR score until
`min(top_k or n, n)` passages are selected. -/
def specGreedyIndices (lam : Rat) (top_k : Option Nat) (qsims : List Rat)
    (sim : Nat → Nat → Rat) (n : Nat) : List Nat :=
  let seed := specFirstMax (fun i => qsims.getD i 0) (List.range n)
  let target := min (pyOrElse top_k n) n
  specGreedyLoop lam (fun i => qsims.getD i 0) sim n target [seed]

/-! ## Configuration (`config.py`), restricted to the fields the embedded
code reads.  Defaults are the source defaults (0.6, 0.7 as rationals). -/

structure AppConfig where
  retriever_type : String := "hybrid"
  hybrid_alpha : Rat := 3/5
  reranker_type : String := "mmr"
  mmr_lambda : Rat := 7/10
  top_k_retrieval : Nat := 10
  llm_provider : String := "openai"
deriving DecidableEq, Repr

/-! ## LLMFactory (`llms/factory.py`)

Backend instances are modelled by numeric identity tags: `LLMProcState`
tracks a process-wide fresh-id counter and a construction log, and
`LLMFactoryState` is one factory object's `self._llms` cache.  `_create_llm`
only inspects the provider name (the constructed `ChatOpenAI` /
`ChatGoogleGenerativeAI` objects themselves are external library values), so
its embedding records success or the `ValueError` it raises. -/

def LLMFactory.dispatch_providers : List String := ["openai", "deepseek", "gemini", "doubao"]

/-- `LLMFactory._create_llm`: succeeds exactly on the four dispatched
provider names, otherwise raises `ValueError(f"Unsupported LLM provider: …")`. -/
def LLMFactory.create_llm (provider : String) : Except String Unit :=
  if provider ∈ LLMFactory.dispatch_providers then Except.ok ()
  else Except.error ("Unsupported LLM provider: " ++ provider)

structure LLMProcState where
  next_id : Nat := 0
  built : List (String × Nat) := []
deriving DecidableEq, Repr

structure LLMFactoryState where
  cache : List (String × Nat) := []
deriving DecidableEq, Repr

/-- `LLMFactory.get_llm`: return the cached instance if present, otherwise
construct (recording the fresh instance id in the process log) and cache. -/
def LLMFactory.get_llm (ps : LLMProcState) (fs : LLMFactoryState) (provider : String) :
    Except String (Nat × LLMProcState × LLMFactoryState) :=
  match fs.cache.lookup provider with
  | some i => Except.ok (i, ps, fs)
  | none =>
    match LLMFactory.create_llm provider with
    | Except.error e => Except.error e
    | Except.ok _ => Except.ok (ps.next_id,
        { next_id := ps.next_id + 1, built := (provider, ps.next_id) :: ps.built },
        { cache := (provider, ps.next_id) :: fs.cache })

/-- The LLM acquisition performed by
`RetrieverFactory._create_multi_query_retriever` (and
`_create_contextual_compression_retriever`): `llm_factory =
LLMFactory(self.config)` builds a **fresh** factory with an empty cache and
then calls `get_llm()` on it; the fresh factory object is then dropped. -/
def multiQueryFactoryGetLLM (ps : LLMProcState) (default_provider : String) :
    Except String (Nat × LLMProcState) :=
  match LLMFactory.get_llm ps {} default_provider with
  | Except.ok (i, ps', _) => Except.ok (i, ps')
  | Except.error e => Except.error e

/-- Run a sequence of `get_llm` requests against one factory object; a raised
`ValueError` propagates to that caller and leaves both states unchanged. -/
def runGetLLMCalls (ps : LLMProcState) (fs : LLMFactoryState) :
    List String → LLMProcState × LLMFactoryState
  | [] => (ps, fs)
  | p :: rest =>
    match LLMFactory.get_llm ps fs p with
    | Except.ok (_, ps', fs') => runGetLLMCalls ps' fs' rest
    | Except.error _ => runGetLLMCalls ps fs rest

/-- Number of constructions recorded for `provider` in the process log. -/
def builtCount (ps : LLMProcState) (provider : String) : Nat :=
  (ps.built.filter (fun x => x.1 == provider)).length

/-- `n` successive creations of a multi-query retriever, each instantiating
its own `LLMFactory`. -/
def runMultiQueryCreations (ps : LLMProcState) (default_provider : String) : Nat → LLMProcState
  | 0 => ps
  | n + 1 =>
    match multiQueryFactoryGetLLM ps default_provider with
    | Except.ok (_, ps') => runMultiQueryCreations ps' default_provider n
    | Except.error _ => runMultiQueryCreations ps default_provider n

/-! ## RetrieverFactory (`retrievers/factory.py`)

The constructed retriever objects are modelled as an AST; `isinstance(x,
type(vector_retriever))` with `vector_retriever = vector_store.as_retriever(…)`
is the test for the bare `vectorStoreRetriever` constructor.  The
`vector_store.similarity_search("", k=10000)` call used to harvest the corpus
for BM25 is the `all_docs` input (an `Except`, since it can raise). -/

inductive Retriever where
  | vectorStoreRetriever (k : Nat)
  | bm25Retriever (texts : List String) (metadatas : List Metadata) (k : Nat)
  | mmrRerankedRetriever (base : Retriever) (lambda_mult : Rat)
  | basicRerankedRetriever (base : Retriever)
  | ensembleRetriever (r1 r2 : Retriever) (w1 w2 : Rat)
  | multiQueryRetriever (base : Retriever)
  | compressionRetriever (base : Retriever)
deriving DecidableEq, Repr

def Retriever.isVectorStoreRetriever : Retriever → Bool
  | .vectorStoreRetriever _ => true
  | _ => false

/-- `RetrieverFactory._create_vector_retriever`: wrap the raw vector-store
retriever in the configured reranker, if any. -/
def RetrieverFactory.create_vector_retriever (cfg : AppConfig) (k : Nat) : Retriever :=
  let retriever := Retriever.vectorStoreRetriever k
  if cfg.reranker_type = "mmr" then Retriever.mmrRerankedRetriever retriever cfg.mmr_lambda
  else if cfg.reranker_type = "basic" then Retriever.basicRerankedRetriever retriever
  else retriever

/-- `RetrieverFactory._create_bm25_retriever`: harvest the corpus; on an
exception or an empty corpus, fall back to `_create_vector_retriever`. -/
def RetrieverFactory.create_bm25_retriever (cfg : AppConfig)
    (all_docs : Except String (List Document)) (k : Nat) : Retriever :=
  match all_docs with
  | Except.error _ => RetrieverFactory.create_vector_retriever cfg k
  | Except.ok docs =>
    if docs.isEmpty then RetrieverFactory.create_vector_retriever cfg k
    else Retriever.bm25Retriever (docs.map (·.page_content)) (docs.map (·.metadata)) k

/-- `RetrieverFactory._create_hybrid_retriever`: build the raw vector
retriever and the BM25 retriever; if the BM25 result has the same type as the
raw vector retriever (the fallback-detection check), return the vector
retriever, otherwise ensemble them with weights
`[hybrid_alpha, 1 - hybrid_alpha]`. -/
def RetrieverFactory.create_hybrid_retriever (cfg : AppConfig)
    (all_docs : Except String (List Document)) (k : Nat) : Retriever :=
  let vector_retriever := Retriever.vectorStoreRetriever k
  let bm25_retriever := RetrieverFactory.create_bm25_retriever cfg all_docs k
  if bm25_retriever.isVectorStoreRetriever then vector_retriever
  else Retriever.ensembleRetriever vector_retriever bm25_retriever
    cfg.hybrid_alpha (1 - cfg.hybrid_alpha)

/-- `RetrieverFactory._create_multi_query_retriever`: acquire an LLM from a
fresh factory; any exception falls back to the vector retriever. -/
def RetrieverFactory.create_multi_query_retriever (cfg : AppConfig) (k : Nat) : Retriever :=
  match LLMFactory.create_llm cfg.llm_provider with
  | Except.ok _ => Retriever.multiQueryRetriever (Retriever.vectorStoreRetriever k)
  | Except.error _ => RetrieverFactory.create_vector_retriever cfg k

/-- `RetrieverFactory._create_contextual_compression_retriever`, same
fallback shape. -/
def RetrieverFactory.create_compression_retriever (cfg : AppConfig) (k : Nat) : Retriever :=
  match LLMFactory.create_llm cfg.llm_provider with
  | Except.ok _ => Retriever.compressionRetriever (Retriever.vectorStoreRetriever k)
  | Except.error _ => RetrieverFactory.create_vector_retriever cfg k

def RetrieverFactory.get_available_types : List String :=
  ["vector", "bm25", "hybrid", "multi_query", "contextual_compression"]

/-- Python `retriever_type or self.config.retriever_type` for
`retriever_type : Optional[str]`: both `None` and the empty string are falsy
and fall back to the configured default. -/
def pyOrStr (s : Option String) (dflt : String) : String :=
  match s with
  | none => dflt
  | some v => if v = "" then dflt else v

/-- `RetrieverFactory.create_retriever`: dispatch on the requested type
(falling back to the configured default when the request is `None` or the
falsy empty string); any unrecognized type takes the final `else` branch and
is served by `_create_vector_retriever`.  No branch raises, hence the
`Except` result is always `ok`. -/
def RetrieverFactory.create_retriever (cfg : AppConfig) (retriever_type : Option String)
    (all_docs : Except String (List Document)) (k : Nat) : Except String Retriever :=
  let rt := pyOrStr retriever_type cfg.retriever_type
  if rt = "vector" then Except.ok (RetrieverFactory.create_vector_retriever cfg k)
  else if rt = "bm25" then Except.ok (RetrieverFactory.create_bm25_retriever cfg all_docs k)
  else if rt = "hybrid" then Except.ok (RetrieverFactory.create_hybrid_retriever cfg all_docs k)
  else if rt = "multi_query" then Except.ok (RetrieverFactory.create_multi_query_retriever cfg k)
  else if rt = "contextual_compression" then Except.ok (RetrieverFactory.create_compression_retriever cfg k)
  else Except.ok (RetrieverFactory.create_vector_retriever cfg k)

/-! ## Hybrid fusion semantics -/

/-- Passage identity used for hybrid dedup: content + source. -/
def docId (d : Document) : String × String :=
  (d.page_content, d.metadata.source.getD "")

/-- Keep the first occurrence of every passage identity. -/
def dedupeById : List Document → List Document
  | [] => []
  | d :: ds => d :: dedupeById (ds.filter (fun e => decide (docId e ≠ docId d)))
termination_by l => l.length
decreasing_by simp only [List.length_cons]; exact Nat.lt_succ_of_le (List.length_filter_le _ _)

/-- Score that list `l` assigns to the passage identity of `d` (0 when the
identity does not occur in `l`). -/
def scoreIn (l : List Document) (d : Document) : Rat :=
  ((l.find? (fun e => decide (docId e = docId d))).map
    (fun e => e.metadata.score.getD 0)).getD 0

/-- Modelled from the spec: the runtime fusion performed by LangChain's
`EnsembleRetriever` is external library code not in this repository, so the
fusion of the two ranked lists follows §4.1's words — each passage appearing
in either list gets final score `vector_weight × vector_score +
lexical_weight × lexical_score` (a missing component is 0), duplicates by
identity (content + source) are removed, and the result is ordered by
descending fused score (stably) and truncated to `k`. -/
def hybridFuse (vector_weight : Rat) (k : Nat) (vres lres : List Document) : List Document :=
  let union := dedupeById (vres ++ lres)
  let scored := union.map (fun d =>
    (d, vector_weight * scoreIn vres d + (1 - vector_weight) * scoreIn lres d))
  ((stableSortDescBy Prod.snd scored).map Prod.fst).take k

/-- Result-level semantics of pure vector mode: the raw vector-store results
`vres`, post-processed by the configured reranker (the `RerankedRetriever`
wrapper calls `rerank_documents(query, documents)` with `top_k=None`). -/
def vectorModeRun (cfg : AppConfig) (query : String) (qsims : List Rat)
    (sim : Nat → Nat → Rat) (vres : List Document) : List Document :=
  if cfg.reranker_type = "mmr" then
    MMRReranker.rerank_documents cfg.mmr_lambda qsims sim query vres none
  else if cfg.reranker_type = "basic" then
    BasicReranker.rerank_documents query vres none
  else vres

/-- Result-level semantics of hybrid mode (BM25 construction succeeded): the
ensemble of the raw vector results and the lexical results, fused with
weights `[hybrid_alpha, 1 - hybrid_alpha]`; no reranker wraps the ensemble. -/
def hybridModeRun (cfg : AppConfig) (k : Nat) (vres lres : List Document) : List Document :=
  hybridFuse cfg.hybrid_alpha k vres lres

/-! ## LangChainRAGPipeline (`rag/langchain_pipeline.py`)

The pipeline is embedded as a pure function of its effectful collaborators:
`retrieve` is `retriever.get_relevant_documents`, `llm` is the
prompt-to-answer generation call (`rag_chain.invoke` up to the prompt
formatting, which is embedded below), and the second component of each
result counts how many generation-backend invocations were made. -/

structure ChatTurn where
  question : String
  answer : String
deriving DecidableEq, Repr

def noRelevantInfoAnswer : String :=
  "抱歉，我在知识库中没有找到相关信息来回答您的问题。请尝试上传相关文档或重新表述您的问题。"

def genErrorAnswer (e : String) : String := "查询过程中发生错误: " ++ e

structure QueryMeta where
  provider : String
  retrieved_docs : Option Nat := none
  context_length : Option Nat := none
  has_history : Option Bool := none
  error : Option String := none
deriving DecidableEq, Repr

structure SourceInfo where
  content : String
  metadata : Metadata
  score : Rat
deriving DecidableEq, Repr

structure QueryResult where
  question : String
  answer : String
  sources : List SourceInfo
  meta : QueryMeta
deriving DecidableEq, Repr

/-- `LangChainRAGPipeline._format_context`. -/
def LangChainRAGPipeline.format_context (documents : List Document) : String :=
  String.intercalate "\n\n" (documents.enum.map (fun p =>
    "[文档" ++ toString (p.1 + 1) ++ "] 来源: " ++ p.2.metadata.source.getD "Unknown"
      ++ "\n" ++ p.2.page_content.trim))

/-- `LangChainRAGPipeline._format_sources`. -/
def LangChainRAGPipeline.format_sources (documents : List Document) : List SourceInfo :=
  documents.map (fun doc =>
    { content := doc.page_content, metadata := doc.metadata,
      score := doc.metadata.score.getD 0 })

def lastN (n : Nat) (l : List α) : List α := l.drop (l.length - n)

/-- `LangChainRAGPipeline._format_chat_history`: last five turns as
alternating `用户:`/`助手:` lines.  (Dict entries are modelled as `ChatTurn`
records, which always carry both keys.) -/
def LangChainRAGPipeline.format_chat_history (chat_history : List ChatTurn) : String :=
  if chat_history.isEmpty then ""
  else String.intercalate "\n" ((lastN 5 chat_history).bind (fun entry =>
    ["用户: " ++ entry.question, "助手: " ++ entry.answer]))

/-! Prompt assembly (`rag/prompts.py`): a formatted `ChatPromptTemplate` is
modelled as the system message (with its placeholders substituted) and the
human message joined by a newline. -/

def qaSystemMessage (context : String) : String :=
  "你是一个专业的知识库助手，能够基于提供的上下文信息准确回答用户问题。\n\n请遵循以下原则：\n1. 仅基于提供的上下文信息回答问题\n2. 如果上下文中没有相关信息，请明确说明\n3. 回答要准确、简洁、有条理\n4. 可以适当引用上下文中的具体内容\n5. 使用中文回答\n\n上下文信息：\n" ++ context

def qaPromptStr (context question : String) : String :=
  qaSystemMessage context ++ "\n" ++ "问题：" ++ question

def conversationalSystemMessage (chat_history context : String) : String :=
  "你是一个专业的知识库助手，能够基于提供的上下文信息和对话历史准确回答用户问题。\n\n请遵循以下原则：\n1. 仅基于提供的上下文信息回答问题\n2. 考虑对话历史，保持上下文连贯性\n3. 如果上下文中没有相关信息，请明确说明\n4. 回答要准确、简洁、有条理\n5. 可以适当引用上下文中的具体内容\n6. 使用中文回答\n\n对话历史：\n" ++ chat_history ++ "\n\n上下文信息：\n" ++ context

def conversationalPromptStr (context chat_history question : String) : String :=
  conversationalSystemMessage chat_history context ++ "\n" ++ "问题：" ++ question

def rewriteSystemMessage (chat_history : String) : String :=
  "你是一个问题重写专家。基于对话历史，将用户的当前问题重写为一个独立、完整的问题。\n\n重写原则：\n1. 保持问题的核心意图不变\n2. 补充必要的上下文信息\n3. 确保重写后的问题可以独立理解\n4. 使用中文\n5. 如果当前问题已经很完整，可以保持不变\n\n对话历史：\n" ++ chat_history

def rewritePromptStr (chat_history question : String) : String :=
  rewriteSystemMessage chat_history ++ "\n" ++ "当前问题：" ++ question ++ "\n\n请重写这个问题："

/-- `LangChainRAGPipeline._rewrite_question_with_history`: no-op on empty
history; otherwise one generation call whose trimmed output replaces the
question, with the original question returned on any exception.  The second
component counts generation-backend invocations. -/
def LangChainRAGPipeline.rewrite_question_with_history (question : String)
    (chat_history : List ChatTurn) (llm : String → Except String String) : String × Nat :=
  if chat_history.isEmpty then (question, 0)
  else
    match llm (rewritePromptStr (LangChainRAGPipeline.format_chat_history chat_history) question) with
    | Except.ok rewritten => (rewritten.trim, 1)
    | Except.error _ => (question, 1)

/-- `LangChainRAGPipeline._empty_response` (shared shape with the inline
empty-result dict in `query`). -/
def emptyQueryResult (question provider : String) : QueryResult :=
  { question := question, answer := noRelevantInfoAnswer, sources := [],
    meta := { provider := provider, retrieved_docs := some 0 } }

/-- The `except Exception` result shape of `query` / `query_with_history`. -/
def errorQueryResult (question provider e : String) : QueryResult :=
  { question := question, answer := genErrorAnswer e, sources := [],
    meta := { provider := provider, error := some e } }

/-- `LangChainRAGPipeline.query`.  `LLMFactory.get_llm` can only raise for an
unsupported provider name (a cache hit implies a previous successful
construction), which the surrounding `try` converts to an error result; the
wall-clock timing fields are not modelled. -/
def LangChainRAGPipeline.query (current_provider : String) (provider : Option String)
    (question : String) (retrieve : String → Except String (List Document))
    (llm : String → Except String String) : QueryResult × Nat :=
  let llm_provider := provider.getD current_provider
  match LLMFactory.create_llm llm_provider with
  | Except.error e => (errorQueryResult question llm_provider e, 0)
  | Except.ok _ =>
    match retrieve question with
    | Except.error e => (errorQueryResult question llm_provider e, 0)
    | Except.ok relevant_docs =>
      if relevant_docs.isEmpty then (emptyQueryResult question llm_provider, 0)
      else
        let context := LangChainRAGPipeline.format_context relevant_docs
        match llm (qaPromptStr context question) with
        | Except.error e => (errorQueryResult question llm_provider e, 1)
        | Except.ok answer =>
          ({ question := question, answer := answer,
             sources := LangChainRAGPipeline.format_sources relevant_docs,
             meta := { provider := llm_provider,
                       retrieved_docs := some relevant_docs.length,
                       context_length := some context.length } }, 1)

/-- `LangChainRAGPipeline.query_with_history`.  Note the source reassigns
`question` to the rewritten question before retrieval, so all later uses
(including the returned `question` field) see the rewritten text. -/
def LangChainRAGPipeline.query_with_history (current_provider : String)
    (provider : Option String) (question0 : String) (chat_history : List ChatTurn)
    (retrieve : String → Except String (List Document))
    (llm : String → Except String String) : QueryResult × Nat :=
  let llm_provider := provider.getD current_provider
  match LLMFactory.create_llm llm_provider with
  | Except.error e => (errorQueryResult question0 llm_provider e, 0)
  | Except.ok _ =>
    let qr := if chat_history.isEmpty then (question0, 0)
      else LangChainRAGPipeline.rewrite_question_with_history question0 chat_history llm
    let question := qr.1
    match retrieve question with
    | Except.error e => (errorQueryResult question llm_provider e, qr.2)
    | Except.ok relevant_docs =>
      if relevant_docs.isEmpty then (emptyQueryResult question llm_provider, qr.2)
      else
        let context := LangChainRAGPipeline.format_context relevant_docs
        let history_text := LangChainRAGPipeline.format_chat_history chat_history
        match llm (conversationalPromptStr context history_text question) with
        | Except.error e => (errorQueryResult question llm_provider e, qr.2 + 1)
        | Except.ok answer =>
          ({ question := question, answer := answer,
             sources := LangChainRAGPipeline.format_sources relevant_docs,
             meta := { provider := llm_provider,
                       retrieved_docs := some relevant_docs.length,
                       context_length := some context.length,
                       has_history := some (!chat_history.isEmpty) } }, qr.2 + 1)

/-- `LangChainRAGPipeline.set_provider`: acquire the provider's backend from
the factory, probe it with `"Hello"`, and swap the active default only on a
non-empty (truthy) response; every exception is caught and yields `False`
with the previous default retained.  `invoke p s` is provider `p`'s response
to prompt `s`. -/
def LangChainRAGPipeline.set_provider (current_provider : String)
    (ps : LLMProcState) (fs : LLMFactoryState) (provider : String)
    (invoke : String → String → Except String String) :
    Bool × String × LLMProcState × LLMFactoryState :=
  match LLMFactory.get_llm ps fs provider with
  | Except.error _ => (false, current_provider, ps, fs)
  | Except.ok (_, ps', fs') =>
    match invoke provider "Hello" with
    | Except.error _ => (false, current_provider, ps', fs')
    | Except.ok content =>
      if content.isEmpty then (false, current_provider, ps', fs')
      else (true, provider, ps', fs')

/-! ## Helper lemmas: stable sort -/

theorem insertDescBy_length (key : α → Rat) (x : α) (l : List α) :
    (insertDescBy key x l).length = l.length + 1 := by
  induction l with
  | nil => rfl
  | cons y ys ih =>
    simp only [insertDescBy]
    split <;> simp [ih]

theorem stableSortDescBy_length (key : α → Rat) (l : List α) :
    (stableSortDescBy key l).length = l.length := by
  induction l with
  | nil => rfl
  | cons x xs ih => simp [stableSortDescBy, insertDescBy_length, ih]

theorem stableSortDescBy_sorted_id (key : α → Rat) (l : List α)
    (h : l.Pairwise (fun a b => key b ≤ key a)) : stableSortDescBy key l = l := by
  induction l with
  | nil => rfl
  | cons x xs ih =>
    rcases List.pairwise_cons.mp h with ⟨hx, hxs⟩
    rw [stableSortDescBy, ih hxs]
    cases xs with
    | nil => rfl
    | cons y ys => simp [insertDescBy, hx y (by simp)]

theorem insertDescBy_skip_pos (key : α → Rat) (x : α) (ps zs : List α)
    (hps : ∀ p ∈ ps, ¬ key p ≤ key x) (hzs : ∀ z ∈ zs, key z ≤ key x) :
    insertDescBy key x (ps ++ zs) = ps ++ x :: zs := by
  induction ps with
  | nil =>
    cases zs with
    | nil => rfl
    | cons z zs' => simp [insertDescBy, hzs z (by simp)]
  | cons p ps' ih =>
    simp only [List.cons_append, insertDescBy, hps p (by simp), if_false]
    exact congrArg (p :: ·) (ih (fun q hq => hps q (by simp [hq])))

theorem stableSortDescBy_zeros_pos (key : α → Rat) (zs ps : List α)
    (hz : ∀ z ∈ zs, key z = 0)
    (hpdesc : ps.Pairwise (fun a b => key b ≤ key a))
    (hppos : ∀ p ∈ ps, 0 < key p) :
    stableSortDescBy key (zs ++ ps) = ps ++ zs := by
  induction zs with
  | nil => simpa using stableSortDescBy_sorted_id key ps hpdesc
  | cons z zs' ih =>
    rw [List.cons_append, stableSortDescBy, ih (fun w hw => hz w (by simp [hw]))]
    refine insertDescBy_skip_pos key z ps zs' (fun p hp => ?_) (fun w hw => ?_)
    · rw [hz z (by simp)]
      exact not_le.mpr (hppos p hp)
    · rw [hz z (by simp), hz w (by simp [hw])]

/-! ## Helper lemmas: dedup and score lookup -/

theorem dedupeById_pairwise (l : List Document)
    (h : l.Pairwise (fun a b => docId a ≠ docId b)) : dedupeById l = l := by
  induction l with
  | nil => rw [dedupeById]
  | cons d ds ih =>
    rcases List.pairwise_cons.mp h with ⟨hd, hds⟩
    rw [dedupeById, List.filter_eq_self.mpr, ih hds]
    intro e he
    simpa using (hd e he).symm

theorem scoreIn_mem (l : List Document) (d : Document) (hmem : d ∈ l)
    (hnd : l.Pairwise (fun a b => docId a ≠ docId b)) :
    scoreIn l d = d.metadata.score.getD 0 := by
  induction l with
  | nil => cases hmem
  | cons e es ih =>
    rcases List.pairwise_cons.mp hnd with ⟨he, hes⟩
    rcases List.mem_cons.mp hmem with rfl | hmem'
    · simp [scoreIn]
    · have hstep : scoreIn (e :: es) d = scoreIn es d := by
        simp [scoreIn, List.find?_cons, he d hmem']
      rw [hstep]
      exact ih hmem' hes

theorem scoreIn_not_mem (l : List Document) (d : Document)
    (h : ∀ e ∈ l, docId e ≠ docId d) : scoreIn l d = 0 := by
  rw [scoreIn, List.find?_eq_none.mpr]
  · rfl
  · intro e he
    simpa using h e he

/-! ## Helper lemmas: the Python first-max scan -/

theorem pyMax2_mem (xs : List (Nat × Rat)) (b : Nat × Rat) :
    pyMax2 b xs = b ∨ pyMax2 b xs ∈ xs := by
  induction xs generalizing b with
  | nil => left; rfl
  | cons x xs' ih =>
    rw [pyMax2]
    rcases ih (if x.2 > b.2 then x else b) with h | h
    · rw [h]
      split
      · right; simp
      · left; rfl
    · right; simp [h]

theorem firstMaxIdx_mem (f : Nat → Rat) (r : Nat) (rs : List Nat) :
    firstMaxIdx f (r :: rs) ∈ r :: rs := by
  rw [firstMaxIdx]
  rcases pyMax2_mem (idxPairs f rs) (r, f r) with h | h
  · rw [h]; simp
  · rcases List.mem_map.mp h with ⟨i, hi, hpair⟩
    rw [← hpair]
    simp [hi]

theorem foldl_max_le (f : Nat → Rat) (l : List Nat) (b : Rat) :
    b ≤ l.foldl (fun a i => max a (f i)) b := by
  induction l generalizing b with
  | nil => exact le_refl b
  | cons i l' ih => exact le_trans (le_max_left b (f i)) (ih (max b (f i)))

theorem listMaxBy_cons₂ (f : Nat → Rat) (j r : Nat) (rs : List Nat) :
    listMaxBy f (j :: r :: rs) = listMaxBy f ((if f r > f j then r else j) :: rs) := by
  simp only [listMaxBy, List.foldl_cons]
  congr 1
  split
  · next h => exact max_eq_right (le_of_lt h)
  · next h => exact max_eq_left (not_lt.mp h)

theorem specFirstMax_step (f : Nat → Rat) (j r : Nat) (rs : List Nat) :
    specFirstMax f (j :: r :: rs) = specFirstMax f ((if f r > f j then r else j) :: rs) := by
  have hM : listMaxBy f (j :: r :: rs) = listMaxBy f ((if f r > f j then r else j) :: rs) :=
    listMaxBy_cons₂ f j r rs
  have hbound : max (f j) (f r) ≤ listMaxBy f (j :: r :: rs) := by
    rw [listMaxBy, List.foldl_cons]
    exact foldl_max_le f rs _
  unfold specFirstMax
  rw [← hM]
  by_cases hc : f r > f j
  · simp only [if_pos hc]
    have hj : ¬ f j = listMaxBy f (j :: r :: rs) :=
      ne_of_lt (lt_of_lt_of_le (lt_of_lt_of_le hc (le_max_right _ _)) hbound)
    simp [List.find?_cons, hj]
  · simp only [if_neg hc]
    have hfr : f r ≤ f j := not_lt.mp hc
    by_cases hj : f j = listMaxBy f (j :: r :: rs)
    · simp [List.find?_cons, hj]
    · have hr : ¬ f r = listMaxBy f (j :: r :: rs) := by
        intro hrM
        have h1 : f j ≤ listMaxBy f (j :: r :: rs) := le_trans (le_max_left _ _) hbound
        have h2 : listMaxBy f (j :: r :: rs) ≤ f j := hrM ▸ hfr
        exact hj (le_antisymm h1 h2)
      simp [List.find?_cons, hj, hr]

theorem firstMaxIdx_eq_specFirstMax (f : Nat → Rat) :
    ∀ (rs : List Nat) (r : Nat), firstMaxIdx f (r :: rs) = specFirstMax f (r :: rs) := by
  intro rs
  induction rs with
  | nil =>
    intro r
    simp [firstMaxIdx, idxPairs, pyMax2, specFirstMax, listMaxBy, List.find?_cons]
  | cons r' rs' ih =>
    intro r
    have hpair : (if f r' > f r then (r', f r') else (r, f r))
        = ((if f r' > f r then r' else r), f (if f r' > f r then r' else r)) := by
      split <;> rfl
    have hstep : firstMaxIdx f (r :: r' :: rs')
        = firstMaxIdx f ((if f r' > f r then r' else r) :: rs') := by
      simp only [firstMaxIdx, idxPairs, List.map_cons, pyMax2]
      rw [hpair]
    rw [hstep, ih]
    exact (specFirstMax_step f r r' rs').symm

theorem firstMaxIdx_eq_spec (f : Nat → Rat) (l : List Nat) (h : l ≠ []) :
    firstMaxIdx f l = specFirstMax f l := by
  cases l with
  | nil => exact absurd rfl h
  | cons r rs => exact firstMaxIdx_eq_specFirstMax f rs r

theorem erase_filter_range (n : Nat) (s : List Nat) (b : Nat) :
    (((List.range n).filter (fun i => decide (i ∉ s))).erase b)
      = (List.range n).filter (fun i => decide (i ∉ s ++ [b])) := by
  have hnd : ((List.range n).filter (fun i => decide (i ∉ s))).Nodup :=
    (List.nodup_range n).filter _
  rw [hnd.erase_eq_filter, List.filter_filter]
  refine List.filter_congr (fun i _ => ?_)
  by_cases h1 : i ∈ s <;> by_cases h2 : i = b <;> simp [h1, h2]

theorem mmrLoop_eq_specGreedyLoop (lam : Rat) (qsim : Nat → Rat) (sim : Nat → Nat → Rat)
    (n target : Nat) :
    ∀ (fuel : Nat) (selected : List Nat), target - selected.length ≤ fuel →
      mmrLoop lam qsim sim target selected
          ((List.range n).filter (fun i => decide (i ∉ selected)))
        = specGreedyLoop lam qsim sim n target selected := by
  intro fuel
  induction fuel with
  | zero =>
    intro selected hle
    have hge : ¬ selected.length < target := by omega
    rw [specGreedyLoop, mmrLoop.eq_def]
    cases hrem : (List.range n).filter (fun i => decide (i ∉ selected)) with
    | nil => simp [hge]
    | cons r rs => simp [hge]
  | succ fuel ih =>
    intro selected hle
    rw [specGreedyLoop, mmrLoop.eq_def]
    cases hrem : (List.range n).filter (fun i => decide (i ∉ selected)) with
    | nil => simp
    | cons r rs =>
      by_cases hlt : selected.length < target
      · simp only [hlt, dif_pos, List.cons_ne_self, ne_eq, true_and]
        have hbest : firstMaxIdx (mmrScore lam qsim sim selected) (r :: rs)
            = specFirstMax (mmrScore lam qsim sim selected) (r :: rs) :=
          firstMaxIdx_eq_specFirstMax _ rs r
        have hne : ¬ (r : Nat) :: rs = [] := by simp
        rw [dif_pos hne]
        have herase : (r :: rs).erase (firstMaxIdx (mmrScore lam qsim sim selected) (r :: rs))
            = (List.range n).filter (fun i => decide (i ∉ selected
                ++ [specFirstMax (mmrScore lam qsim sim selected) (r :: rs)])) := by
          rw [hbest, ← hrem]
          exact erase_filter_range n selected _
        rw [herase, hbest]
        exact ih (selected ++ [specFirstMax (mmrScore lam qsim sim selected) (r :: rs)])
          (by simp only [List.length_append, List.length_cons, List.length_nil]; omega)
      · simp [hlt]

theorem mmrLoop_length (lam : Rat) (qsim : Nat → Rat) (sim : Nat → Nat → Rat) (target : Nat) :
    ∀ (fuel : Nat) (selected remaining : List Nat), remaining.length ≤ fuel →
      selected.length ≤ target →
      (mmrLoop lam qsim sim target selected remaining).length
        = min target (selected.length + remaining.length) := by
  intro fuel
  induction fuel with
  | zero =>
    intro selected remaining hf hs
    have hnil : remaining = [] := List.length_eq_zero.mp (Nat.le_zero.mp hf)
    subst hnil
    rw [mmrLoop.eq_def]
    simp
    omega
  | succ fuel ih =>
    intro selected remaining hf hs
    cases remaining with
    | nil =>
      rw [mmrLoop.eq_def]
      simp
      omega
    | cons r rs =>
      rw [mmrLoop.eq_def]
      by_cases hlt : selected.length < target
      · simp only [hlt, dif_pos]
        have hmem : firstMaxIdx (mmrScore lam qsim sim selected) (r :: rs) ∈ r :: rs :=
          firstMaxIdx_mem _ r rs
        have herase : ((r :: rs).erase
            (firstMaxIdx (mmrScore lam qsim sim selected) (r :: rs))).length = rs.length := by
          rw [List.length_erase_of_mem hmem]
          simp
        rw [ih _ _ (by rw [herase]; simp only [List.length_cons] at hf; omega)
            (by simp only [List.length_append, List.length_cons, List.length_nil]; omega)]
        rw [herase]
        simp only [List.length_append, List.length_cons, List.length_nil]
        omega
      · simp only [hlt, dif_neg, not_false_iff]
        simp
        omega

/-! ## Claim theorems -/

/-- C2: for every question, when retrieval yields zero passages, `query`
returns the fixed "no relevant information found" answer with an empty
sources list and metadata recording zero retrieved documents, and performs
no generation-backend call (the invocation counter stays 0). -/
theorem empty_retrieval_short_circuit (current_provider : String) (provider : Option String)
    (question : String) (retrieve : String → Except String (List Document))
    (llm : String → Except String String)
    (hsup : LLMFactory.create_llm (provider.getD current_provider) = Except.ok ())
    (hret : retrieve question = Except.ok []) :
    (LangChainRAGPipeline.query current_provider provider question retrieve llm).1.answer
        = noRelevantInfoAnswer
    ∧ (LangChainRAGPipeline.query current_provider provider question retrieve llm).1.sources = []
    ∧ (LangChainRAGPipeline.query current_provider provider question retrieve llm).1.meta.retrieved_docs
        = some 0
    ∧ (LangChainRAGPipeline.query current_provider provider question retrieve llm).2 = 0 := by
  simp [LangChainRAGPipeline.query, hsup, hret, emptyQueryResult]

/-- Witness for C2 at a concrete instance. -/
theorem empty_retrieval_short_circuit_witness :
    (LangChainRAGPipeline.query "openai" none "q" (fun _ => Except.ok [])
        (fun _ => Except.ok "x")).1.answer = noRelevantInfoAnswer
    ∧ (LangChainRAGPipeline.query "openai" none "q" (fun _ => Except.ok [])
        (fun _ => Except.ok "x")).1.sources = []
    ∧ (LangChainRAGPipeline.query "openai" none "q" (fun _ => Except.ok [])
        (fun _ => Except.ok "x")).1.meta.retrieved_docs = some 0
    ∧ (LangChainRAGPipeline.query "openai" none "q" (fun _ => Except.ok [])
        (fun _ => Except.ok "x")).2 = 0 :=
  empty_retrieval_short_circuit "openai" none "q" _ _ (by simp [LLMFactory.create_llm, LLMFactory.dispatch_providers]) rfl

/-- C9: for every question string, rewriting with an empty chat history
returns the question unchanged, bit-for-bit, and performs no
generation-backend call (the invocation counter is 0). -/
theorem rewrite_noop_on_empty_history (question : String)
    (llm : String → Except String String) :
    LangChainRAGPipeline.rewrite_question_with_history question [] llm = (question, 0) := by
  simp [LangChainRAGPipeline.rewrite_question_with_history]

/-- C4: any exception raised during answer generation (in `query` or
`query_with_history`) is caught and converted into a returned result whose
answer string describes the error, whose sources list is empty, and whose
metadata carries the error; the operations are total functions of their
inputs, so no fault reaches the caller. -/
theorem generation_error_contained (current_provider : String) (provider : Option String)
    (question q2 e1 e2 : String) (chat_history : List ChatTurn)
    (docs1 docs2 : List Document)
    (retrieve1 retrieve2 : String → Except String (List Document))
    (llm : String → Except String String)
    (hsup : LLMFactory.create_llm (provider.getD current_provider) = Except.ok ())
    (hd1 : docs1 ≠ []) (hr1 : retrieve1 question = Except.ok docs1)
    (hg1 : llm (qaPromptStr (LangChainRAGPipeline.format_context docs1) question)
        = Except.error e1)
    (hq2 : (if chat_history.isEmpty then (question, 0)
        else LangChainRAGPipeline.rewrite_question_with_history question chat_history llm).1 = q2)
    (hd2 : docs2 ≠ []) (hr2 : retrieve2 q2 = Except.ok docs2)
    (hg2 : llm (conversationalPromptStr (LangChainRAGPipeline.format_context docs2)
        (LangChainRAGPipeline.format_chat_history chat_history) q2) = Except.error e2) :
    (LangChainRAGPipeline.query current_provider provider question retrieve1 llm).1
        = errorQueryResult question (provider.getD current_provider) e1
    ∧ (LangChainRAGPipeline.query_with_history current_provider provider question chat_history
        retrieve2 llm).1
        = errorQueryResult q2 (provider.getD current_provider) e2 := by
  constructor
  · have hd1' : docs1.isEmpty = false := by
      cases docs1 with
      | nil => exact absurd rfl hd1
      | cons a l => rfl
    simp [LangChainRAGPipeline.query, hsup, hr1, hd1', hg1]
  · have hd2' : docs2.isEmpty = false := by
      cases docs2 with
      | nil => exact absurd rfl hd2
      | cons a l => rfl
    simp only [LangChainRAGPipeline.query_with_history, hsup, hq2, hr2, hd2', hg2,
      Bool.false_eq_true, if_false]

/-- Witness for C4 at a concrete instance. -/
theorem generation_error_contained_witness :
    (LangChainRAGPipeline.query "openai" none "q" (fun _ => Except.ok [{ page_content := "A" }])
        (fun _ => Except.error "boom")).1
        = errorQueryResult "q" "openai" "boom"
    ∧ (LangChainRAGPipeline.query_with_history "openai" none "q" []
        (fun _ => Except.ok [{ page_content := "A" }]) (fun _ => Except.error "boom")).1
        = errorQueryResult "q" "openai" "boom" :=
  generation_error_contained "openai" none "q" "q" "boom" "boom" [] [{ page_content := "A" }]
    [{ page_content := "A" }] _ _ _ (by simp [LLMFactory.create_llm, LLMFactory.dispatch_providers])
    (by simp) rfl rfl (by simp) (by simp) rfl rfl

/-- C6: `set_provider` succeeds iff the backend could be acquired and the
probe call (`invoke provider "Hello"`) returns a non-empty response; on probe
failure or any probe exception it returns `False` and the previously active
default provider is unchanged — no partial state. -/
theorem set_provider_atomic_probe (current_provider : String) (ps : LLMProcState)
    (fs : LLMFactoryState) (provider : String)
    (invoke : String → String → Except String String) :
    ((LangChainRAGPipeline.set_provider current_provider ps fs provider invoke).1 = true
      ↔ ((LLMFactory.get_llm ps fs provider).isOk = true
          ∧ ∃ content, invoke provider "Hello" = Except.ok content ∧ content.isEmpty = false))
    ∧ ((LangChainRAGPipeline.set_provider current_provider ps fs provider invoke).1 = true →
        (LangChainRAGPipeline.set_provider current_provider ps fs provider invoke).2.1 = provider)
    ∧ ((LangChainRAGPipeline.set_provider current_provider ps fs provider invoke).1 = false →
        (LangChainRAGPipeline.set_provider current_provider ps fs provider invoke).2.1
          = current_provider) := by
  unfold LangChainRAGPipeline.set_provider
  cases hget : LLMFactory.get_llm ps fs provider with
  | error e => simp [hget, Except.isOk, Except.toBool]
  | ok v =>
    obtain ⟨i, ps', fs'⟩ := v
    cases hinv : invoke provider "Hello" with
    | error e => simp [hinv, Except.isOk, Except.toBool]
    | ok content =>
      by_cases hc : content.isEmpty
      · simp [hinv, hc, Except.isOk, Except.toBool]
      · simp [hinv, hc, Except.isOk, Except.toBool]

/-- Witness for C6 at a concrete instance (C6's statement carries
implications, so we record its instantiation). -/
theorem set_provider_atomic_probe_witness :
    ((LangChainRAGPipeline.set_provider "openai" {} {} "gemini"
        (fun _ _ => Except.ok "hey")).1 = true
      ↔ ((LLMFactory.get_llm {} {} "gemini").isOk = true
          ∧ ∃ content, (fun (_ _ : String) => Except.ok (ε := String) "hey") "gemini" "Hello"
              = Except.ok content ∧ content.isEmpty = false))
    ∧ ((LangChainRAGPipeline.set_provider "openai" {} {} "gemini"
        (fun _ _ => Except.ok "hey")).1 = true →
        (LangChainRAGPipeline.set_provider "openai" {} {} "gemini"
          (fun _ _ => Except.ok "hey")).2.1 = "gemini")
    ∧ ((LangChainRAGPipeline.set_provider "openai" {} {} "gemini"
        (fun _ _ => Except.ok "hey")).1 = false →
        (LangChainRAGPipeline.set_provider "openai" {} {} "gemini"
          (fun _ _ => Except.ok "hey")).2.1 = "openai") :=
  set_provider_atomic_probe "openai" {} {} "gemini" (fun _ _ => Except.ok "hey")

/-- C7 counterexample: explicitly requesting the unsupported retrieval mode
`"graph"` on a non-empty corpus reports no error at all — it is silently
served by the vector retriever, refuting the claim that caller-requested
unsupported modes produce an explicit error. -/
theorem unsupported_retriever_type_silent_fallback :
    RetrieverFactory.create_retriever { reranker_type := "plain" } (some "graph")
        (Except.ok [{ page_content := "A" }]) 5
      = Except.ok (Retriever.vectorStoreRetriever 5) := by
  simp [RetrieverFactory.create_retriever, RetrieverFactory.create_vector_retriever, pyOrStr]

/-- C7 amended: an explicitly requested unsupported provider name raises an
explicit `ValueError`, but an explicitly requested unsupported non-empty
retrieval mode is silently served by `_create_vector_retriever` (no error,
the final `else` branch of the dispatch); a requested empty-string mode is
falsy in Python and is redirected to the configured default mode, exactly
as if no mode had been requested. -/
theorem unsupported_name_error_policy_amended (provider rt : String) (cfg : AppConfig)
    (all_docs : Except String (List Document)) (k : Nat)
    (hp : provider ∉ LLMFactory.dispatch_providers)
    (hrt : rt ∉ RetrieverFactory.get_available_types) (hrt0 : rt ≠ "") :
    LLMFactory.create_llm provider
        = Except.error ("Unsupported LLM provider: " ++ provider)
    ∧ RetrieverFactory.create_retriever cfg (some rt) all_docs k
        = Except.ok (RetrieverFactory.create_vector_retriever cfg k)
    ∧ RetrieverFactory.create_retriever cfg (some "") all_docs k
        = RetrieverFactory.create_retriever cfg none all_docs k := by
  refine ⟨?_, ?_, ?_⟩
  · simp [LLMFactory.create_llm, hp]
  · simp only [RetrieverFactory.get_available_types, List.mem_cons, List.not_mem_nil,
      or_false, not_or] at hrt
    obtain ⟨h1, h2, h3, h4, h5⟩ := hrt
    simp [RetrieverFactory.create_retriever, pyOrStr, hrt0, h1, h2, h3, h4, h5]
  · simp [RetrieverFactory.create_retriever, pyOrStr]

/-- Witness for C7's amended theorem at a concrete instance. -/
theorem unsupported_name_error_policy_amended_witness :
    LLMFactory.create_llm "claude"
        = Except.error ("Unsupported LLM provider: " ++ "claude")
    ∧ RetrieverFactory.create_retriever { reranker_type := "plain" } (some "graph")
        (Except.ok []) 3
        = Except.ok (RetrieverFactory.create_vector_retriever { reranker_type := "plain" } 3)
    ∧ RetrieverFactory.create_retriever { reranker_type := "plain" } (some "")
        (Except.ok []) 3
        = RetrieverFactory.create_retriever { reranker_type := "plain" } none
            (Except.ok []) 3 :=
  unsupported_name_error_policy_amended "claude" "graph" { reranker_type := "plain" }
    (Except.ok []) 3 (by decide) (by decide) (by decide)

/-- `get_llm` on a cache miss with a supported provider: the constructed
state, as one equation. -/
theorem get_llm_miss_ok (ps : LLMProcState) (fs : LLMFactoryState) (q : String)
    (hcache : fs.cache.lookup q = none) (u : Unit)
    (hcr : LLMFactory.create_llm q = Except.ok u) :
    LLMFactory.get_llm ps fs q
      = Except.ok (ps.next_id,
          { next_id := ps.next_id + 1, built := (q, ps.next_id) :: ps.built },
          { cache := (q, ps.next_id) :: fs.cache }) := by
  rw [LLMFactory.get_llm, hcache, hcr]

theorem get_llm_hit (ps : LLMProcState) (fs : LLMFactoryState) (q : String) (i : Nat)
    (hcache : fs.cache.lookup q = some i) :
    LLMFactory.get_llm ps fs q = Except.ok (i, ps, fs) := by
  rw [LLMFactory.get_llm, hcache]

theorem get_llm_miss_err (ps : LLMProcState) (fs : LLMFactoryState) (q e : String)
    (hcache : fs.cache.lookup q = none)
    (hcr : LLMFactory.create_llm q = Except.error e) :
    LLMFactory.get_llm ps fs q = Except.error e := by
  rw [LLMFactory.get_llm, hcache, hcr]

theorem builtCount_build_self (ps : LLMProcState) (q : String) :
    builtCount
        { next_id := ps.next_id + 1, built := (q, ps.next_id) :: ps.built } q
      = builtCount ps q + 1 := by
  simp [builtCount, List.filter_cons]

theorem builtCount_build_other (ps : LLMProcState) (q p : String) (h : ¬ q = p) :
    builtCount
        { next_id := ps.next_id + 1, built := (q, ps.next_id) :: ps.built } p
      = builtCount ps p := by
  simp [builtCount, List.filter_cons, h]

/-- Invariant carried through a sequence of `get_llm` calls on one factory:
if `provider` was built at most once so far, and a build implies a cache
entry, then it is built at most once after any further calls. -/
theorem builtCount_runGetLLMCalls_le (calls : List String) :
    ∀ (ps : LLMProcState) (fs : LLMFactoryState) (provider : String),
      builtCount ps provider ≤ 1 →
      (1 ≤ builtCount ps provider → (fs.cache.lookup provider).isSome = true) →
      builtCount (runGetLLMCalls ps fs calls).1 provider ≤ 1 := by
  induction calls with
  | nil => intro ps fs provider h1 _; exact h1
  | cons q rest ih =>
    intro ps fs provider h1 h2
    rw [runGetLLMCalls]
    cases hcache : fs.cache.lookup q with
    | some i =>
      rw [get_llm_hit ps fs q i hcache]
      exact ih ps fs provider h1 h2
    | none =>
      cases hcr : LLMFactory.create_llm q with
      | error e =>
        rw [get_llm_miss_err ps fs q e hcache hcr]
        exact ih ps fs provider h1 h2
      | ok u =>
        rw [get_llm_miss_ok ps fs q hcache u hcr]
        by_cases hq : q = provider
        · subst hq
          have hz : builtCount ps q = 0 := by
            by_contra hnz
            have hsome : (fs.cache.lookup q).isSome = true := h2 (by omega)
            rw [hcache] at hsome
            cases hsome
          have hstep := builtCount_build_self ps q
          refine ih _ _ q (by omega) ?_
          intro _
          simp [List.lookup]
        · have hstep := builtCount_build_other ps q provider hq
          refine ih _ _ provider (by omega) ?_
          intro hb
          have hlk := h2 (by omega)
          have hbq : (provider == q) = false := beq_eq_false_iff_ne.mpr (fun h => hq h.symm)
          simpa [List.lookup, hbq] using hlk

/-- C8 counterexample: two successive multi-query retriever creations each
instantiate a fresh `LLMFactory` and therefore construct the `"openai"`
backend twice within one process, refuting "constructed at most once per
process lifetime / at most one live instance per provider name". -/
theorem multi_query_builds_second_instance :
    builtCount (runMultiQueryCreations {} "openai" 2) "openai" = 2
    ∧ (runMultiQueryCreations {} "openai" 2).built = [("openai", 1), ("openai", 0)] := by
  constructor <;> rfl

/-- C8 amended: memoization is per `LLMFactory` object — on a single factory,
any sequence of `get_llm` requests constructs each provider at most once, and
a successful `get_llm` is idempotent (the same cached handle and unchanged
state are returned on repetition); but retriever creation paths that
instantiate a fresh factory (multi-query / contextual compression) construct
fresh instances, so the process-wide bound fails. -/
theorem llm_factory_memoization_amended :
    (∀ (calls : List String) (provider : String),
      builtCount (runGetLLMCalls {} {} calls).1 provider ≤ 1)
    ∧ (∀ (ps : LLMProcState) (fs : LLMFactoryState) (provider : String)
        (i : Nat) (ps' : LLMProcState) (fs' : LLMFactoryState),
        LLMFactory.get_llm ps fs provider = Except.ok (i, ps', fs') →
        LLMFactory.get_llm ps' fs' provider = Except.ok (i, ps', fs')) := by
  constructor
  · intro calls provider
    refine builtCount_runGetLLMCalls_le calls {} {} provider ?_ ?_
    · simp [builtCount]
    · intro h
      simp [builtCount] at h
  · intro ps fs provider i ps' fs' h
    rw [LLMFactory.get_llm] at h
    cases hcache : fs.cache.lookup provider with
    | some j =>
      rw [hcache] at h
      simp only [Except.ok.injEq, Prod.mk.injEq] at h
      obtain ⟨rfl, rfl, rfl⟩ := h
      rw [LLMFactory.get_llm, hcache]
    | none =>
      rw [hcache] at h
      cases hcr : LLMFactory.create_llm provider with
      | error e => rw [hcr] at h; cases h
      | ok u =>
        rw [hcr] at h
        simp only [Except.ok.injEq, Prod.mk.injEq] at h
        obtain ⟨rfl, rfl, rfl⟩ := h
        rw [LLMFactory.get_llm]
        simp [List.lookup]

/-- Witness for C8's amended theorem at concrete instances. -/
theorem llm_factory_memoization_amended_witness :
    builtCount (runGetLLMCalls {} {} ["openai", "openai", "gemini"]).1 "openai" ≤ 1
    ∧ LLMFactory.get_llm { next_id := 1, built := [("openai", 0)] }
        { cache := [("openai", 0)] } "openai"
        = Except.ok (0, { next_id := 1, built := [("openai", 0)] },
            { cache := [("openai", 0)] }) :=
  ⟨llm_factory_memoization_amended.1 ["openai", "openai", "gemini"] "openai",
   llm_factory_memoization_amended.2 {} {} "openai" 0
     { next_id := 1, built := [("openai", 0)] } { cache := [("openai", 0)] } rfl⟩

/-- C5 (code bug): with the default `reranker_type = "mmr"` and an empty
namespace, `_create_bm25_retriever` falls back to a *reranked* vector
retriever, so the `isinstance(bm25_retriever, type(vector_retriever))` check
in `_create_hybrid_retriever` fails to detect the fallback and an ensemble of
the raw vector retriever with the reranked vector retriever is returned —
not the pure vector retriever the inline comments and the claim promise.
Only with no reranker configured does the intended fallback fire. -/
theorem hybrid_bm25_fallback_misses_with_reranker :
    RetrieverFactory.create_hybrid_retriever { reranker_type := "mmr" } (Except.ok []) 5
      = Retriever.ensembleRetriever (Retriever.vectorStoreRetriever 5)
          (Retriever.mmrRerankedRetriever (Retriever.vectorStoreRetriever 5) (7/10))
          (3/5) (1 - 3/5)
    ∧ RetrieverFactory.create_hybrid_retriever { reranker_type := "mmr" } (Except.ok []) 5
        ≠ Retriever.vectorStoreRetriever 5
    ∧ RetrieverFactory.create_hybrid_retriever { reranker_type := "plain" } (Except.ok []) 5
        = Retriever.vectorStoreRetriever 5 := by
  refine ⟨rfl, by decide, rfl⟩

/-- C10: a `top_k` of `0` is falsy in Python (`if top_k:` and
`top_k or len(documents)`), so both rerankers treat it as "no limit": the
basic reranker returns the same full sorted list as `top_k=None`, and the MMR
reranker selects every document. -/
theorem rerank_topk_zero_full_list (query : String) (documents : List Document)
    (lambda_mult : Rat) (qsims : List Rat) (sim : Nat → Nat → Rat)
    (hq : qsims.length = documents.length) :
    BasicReranker.rerank_documents query documents (some 0)
      = BasicReranker.rerank_documents query documents none
    ∧ (BasicReranker.rerank_documents query documents (some 0)).length = documents.length
    ∧ (MMRReranker.rerank_documents lambda_mult qsims sim query documents (some 0)).length
      = documents.length := by
  refine ⟨rfl, ?_, ?_⟩
  · simp [BasicReranker.rerank_documents, pyTruthy, stableSortDescBy_length]
  · rw [MMRReranker.rerank_documents]
    by_cases hle : documents.length ≤ 1
    · rw [if_pos hle]
    · rw [if_neg hle]
      have hn1 : 1 ≤ documents.length := by omega
      have hlen : (mmrSelectionIndices lambda_mult (some 0) qsims sim documents.length).length
          = documents.length := by
        rw [mmrSelectionIndices]
        have hmem : np_argmax qsims ∈ List.range documents.length := by
          rw [np_argmax, hq]
          have hne : List.range documents.length ≠ [] := by
            apply List.ne_nil_of_length_pos
            rw [List.length_range]
            omega
          cases hr : List.range documents.length with
          | nil => exact absurd hr hne
          | cons r rs => exact firstMaxIdx_mem _ r rs
        have herase : ((List.range documents.length).erase (np_argmax qsims)).length
            = documents.length - 1 := by
          rw [List.length_erase_of_mem hmem, List.length_range]
        rw [mmrLoop_length lambda_mult (fun i => qsims.getD i 0) sim _
          ((List.range documents.length).erase (np_argmax qsims)).length _ _ (le_refl _) ?hs]
        case hs =>
          simp only [List.length_cons, List.length_nil, pyOrElse]
          omega
        rw [herase]
        simp only [List.length_cons, List.length_nil, pyOrElse]
        omega
      rw [listMapAnnotate, List.length_map, List.enum_length, hlen]

/-- Witness for C10 at a concrete instance. -/
theorem rerank_topk_zero_full_list_witness :
    BasicReranker.rerank_documents "q" [{ page_content := "A" }, { page_content := "B" }] (some 0)
      = BasicReranker.rerank_documents "q" [{ page_content := "A" }, { page_content := "B" }] none
    ∧ (BasicReranker.rerank_documents "q"
        [{ page_content := "A" }, { page_content := "B" }] (some 0)).length
      = ([{ page_content := "A" }, { page_content := "B" }] : List Document).length
    ∧ (MMRReranker.rerank_documents (1/2) [3, 5] (fun _ _ => 0) "q"
        [{ page_content := "A" }, { page_content := "B" }] (some 0)).length
      = ([{ page_content := "A" }, { page_content := "B" }] : List Document).length :=
  rerank_topk_zero_full_list "q" [{ page_content := "A" }, { page_content := "B" }]
    (1/2) [3, 5] (fun _ _ => 0) (by decide)

/-- C3: for every query and every list of two or more passages, MMR
reranking equals the claim's greedy description: seed with the first passage
of maximal query similarity, then repeatedly select among the unselected
passages (ties broken by first occurrence in input order) the one maximizing
`lambda * query_sim - (1 - lambda) * max_sim_to_selected`, until
`min(top_k or n, n)` passages are selected; the output is the annotated
image of those indices. -/
theorem mmr_rerank_matches_greedy_spec (lambda_mult : Rat) (top_k : Option Nat)
    (qsims : List Rat) (sim : Nat → Nat → Rat) (query : String)
    (documents : List Document)
    (h2 : 2 ≤ documents.length) (hq : qsims.length = documents.length) :
    MMRReranker.rerank_documents lambda_mult qsims sim query documents top_k
      = listMapAnnotate documents qsims
          (specGreedyIndices lambda_mult top_k qsims sim documents.length) := by
  rw [MMRReranker.rerank_documents, if_neg (by omega)]
  congr 1
  have hseed : np_argmax qsims
      = specFirstMax (fun i => qsims.getD i 0) (List.range documents.length) := by
    rw [np_argmax, hq]
    apply firstMaxIdx_eq_spec
    apply List.ne_nil_of_length_pos
    rw [List.length_range]
    omega
  simp only [mmrSelectionIndices, specGreedyIndices]
  rw [hseed]
  have hfilter0 : (List.range documents.length).erase
        (specFirstMax (fun i => qsims.getD i 0) (List.range documents.length))
      = (List.range documents.length).filter (fun i => decide
          (i ∉ ([specFirstMax (fun i => qsims.getD i 0) (List.range documents.length)]
            : List Nat))) := by
    rw [(List.nodup_range documents.length).erase_eq_filter]
    refine List.filter_congr (fun i _ => ?_)
    have hbb : ∀ (a b : Nat), (a != b) = !decide (a = b) := by
      intro a b
      by_cases h : a = b <;> simp [h]
    simp [hbb]
  rw [hfilter0]
  exact mmrLoop_eq_specGreedyLoop lambda_mult (fun i => qsims.getD i 0) sim
    documents.length (min (pyOrElse top_k documents.length) documents.length)
    (min (pyOrElse top_k documents.length) documents.length)
    [specFirstMax (fun i => qsims.getD i 0) (List.range documents.length)]
    (by simp only [List.length_cons, List.length_nil]; omega)

/-- Witness for C3 at a concrete instance. -/
theorem mmr_rerank_matches_greedy_spec_witness :
    MMRReranker.rerank_documents 1 [3, 5, 4] (fun i j => if i = j then 1 else 0) "q"
        [{ page_content := "A" }, { page_content := "B" }, { page_content := "C" }] (some 2)
      = listMapAnnotate
          [{ page_content := "A" }, { page_content := "B" }, { page_content := "C" }]
          [3, 5, 4]
          (specGreedyIndices 1 (some 2) [3, 5, 4] (fun i j => if i = j then 1 else 0) 3) :=
  mmr_rerank_matches_greedy_spec 1 (some 2) [3, 5, 4] (fun i j => if i = j then 1 else 0) "q"
    [{ page_content := "A" }, { page_content := "B" }, { page_content := "C" }]
    (by decide) (by decide)

theorem map_fst_map_pair (f : Document → Rat) (l : List Document) :
    (l.map (fun d => (d, f d))).map Prod.fst = l := by
  induction l with
  | nil => rfl
  | cons d ds ih => simp [ih]

theorem pairwise_of_all (R : α → α → Prop) (l : List α) (h : ∀ a b, R a b) :
    l.Pairwise R := by
  induction l with
  | nil => exact List.Pairwise.nil
  | cons x xs ih => exact List.Pairwise.cons (fun b _ => h x b) ih

/-- C1 counterexample: with `vector_weight = 1.0` the fused hybrid list still
contains the zero-weighted lexical-only passage, so it is a 2-element list
while pure vector mode returns the 1-element vector list — the two ordered
lists are not equal. -/
theorem hybrid_alpha_one_differs_from_pure_vector :
    hybridModeRun { hybrid_alpha := 1, reranker_type := "plain" } 2
        [{ page_content := "A", metadata := { source := some "s1", score := some 9 } }]
        [{ page_content := "B", metadata := { source := some "s2", score := some 8 } }]
      ≠ vectorModeRun { hybrid_alpha := 1, reranker_type := "plain" } "q" [] (fun _ _ => 0)
        [{ page_content := "A", metadata := { source := some "s1", score := some 9 } }] := by
  intro h
  have hlen := congrArg List.length h
  have hpw : ([({ page_content := "A", metadata := { source := some "s1", score := some 9 } } : Document)]
      ++ [({ page_content := "B", metadata := { source := some "s2", score := some 8 } } : Document)]).Pairwise
      (fun a b => docId a ≠ docId b) := by
    simp [docId]
  have hL : (hybridModeRun { hybrid_alpha := 1, reranker_type := "plain" } 2
      [{ page_content := "A", metadata := { source := some "s1", score := some 9 } }]
      [{ page_content := "B", metadata := { source := some "s2", score := some 8 } }]).length
      = 2 := by
    simp only [hybridModeRun, hybridFuse]
    rw [dedupeById_pairwise _ hpw]
    simp [List.length_take, stableSortDescBy_length]
  have hR : (vectorModeRun { hybrid_alpha := 1, reranker_type := "plain" } "q" []
      (fun _ _ => 0)
      [{ page_content := "A", metadata := { source := some "s1", score := some 9 } }]).length
      = 1 := by
    rw [vectorModeRun, if_neg (by decide), if_neg (by decide)]
    rfl
  rw [hL, hR] at hlen
  exact absurd hlen (by decide)

/-- C1 amended: assuming the two retrieval lists carry pairwise-distinct
passage identities, the vector scores are nonincreasing and nonnegative, the
lexical scores are nonincreasing and positive, and no reranker is configured:
with `vector_weight = 1.0` the hybrid output equals the pure-vector list
followed by the (zero-weighted) lexical passages, truncated to `k`; with
`vector_weight = 0.0` it equals the pure-lexical list followed by the
(zero-weighted) vector passages, truncated to `k`.  The claimed strict
equality with the single-mode lists fails only by these appended
zero-score passages. -/
theorem hybrid_fusion_weight_extremes_amended (cfg : AppConfig) (query : String)
    (qsims : List Rat) (sim : Nat → Nat → Rat) (k : Nat) (vres lres : List Document)
    (hids : (vres ++ lres).Pairwise (fun a b => docId a ≠ docId b))
    (hvdesc : vres.Pairwise (fun a b => b.relevanceScore ≤ a.relevanceScore))
    (hv0 : ∀ d ∈ vres, 0 ≤ d.relevanceScore)
    (hldesc : lres.Pairwise (fun a b => b.relevanceScore ≤ a.relevanceScore))
    (hl0 : ∀ d ∈ lres, 0 < d.relevanceScore)
    (hrt1 : cfg.reranker_type ≠ "mmr") (hrt2 : cfg.reranker_type ≠ "basic") :
    (cfg.hybrid_alpha = 1 →
      hybridModeRun cfg k vres lres
        = (vectorModeRun cfg query qsims sim vres ++ lres).take k)
    ∧ (cfg.hybrid_alpha = 0 →
      hybridModeRun cfg k vres lres
        = (lres ++ vectorModeRun cfg query qsims sim vres).take k) := by
  have hvm : vectorModeRun cfg query qsims sim vres = vres := by
    rw [vectorModeRun, if_neg hrt1, if_neg hrt2]
  obtain ⟨hvids, hlids, hcross⟩ := List.pairwise_append.mp hids
  have hdedupe : dedupeById (vres ++ lres) = vres ++ lres := dedupeById_pairwise _ hids
  constructor
  · intro hα
    rw [hvm]
    simp only [hybridModeRun, hybridFuse, hα]
    rw [hdedupe, List.map_append]
    have hmapv : vres.map (fun d => (d, (1:Rat) * scoreIn vres d + (1 - 1) * scoreIn lres d))
        = vres.map (fun d => (d, d.relevanceScore)) := by
      refine List.map_congr_left (fun d hd => ?_)
      have h1 : scoreIn vres d = d.metadata.score.getD 0 := scoreIn_mem vres d hd hvids
      simp only [Prod.mk.injEq, true_and]
      rw [h1, Document.relevanceScore]
      ring
    have hmapl : lres.map (fun d => (d, (1:Rat) * scoreIn vres d + (1 - 1) * scoreIn lres d))
        = lres.map (fun d => (d, (0:Rat))) := by
      refine List.map_congr_left (fun d hd => ?_)
      have h1 : scoreIn vres d = 0 :=
        scoreIn_not_mem vres d (fun e he => hcross e he d hd)
      simp only [Prod.mk.injEq, true_and]
      rw [h1]
      ring
    rw [hmapv, hmapl, stableSortDescBy_sorted_id]
    · rw [List.map_append, map_fst_map_pair, map_fst_map_pair]
    · refine List.pairwise_append.mpr ⟨?_, ?_, ?_⟩
      · rw [List.pairwise_map]
        exact hvdesc
      · rw [List.pairwise_map]
        exact pairwise_of_all _ _ (fun a b => le_refl 0)
      · intro a ha b hb
        rcases List.mem_map.mp ha with ⟨da, hda, rfl⟩
        rcases List.mem_map.mp hb with ⟨db, hdb, rfl⟩
        exact hv0 da hda
  · intro hα
    rw [hvm]
    simp only [hybridModeRun, hybridFuse, hα]
    rw [hdedupe, List.map_append]
    have hmapv : vres.map (fun d => (d, (0:Rat) * scoreIn vres d + (1 - 0) * scoreIn lres d))
        = vres.map (fun d => (d, (0:Rat))) := by
      refine List.map_congr_left (fun d hd => ?_)
      have h1 : scoreIn lres d = 0 :=
        scoreIn_not_mem lres d (fun e he => (hcross d hd e he).symm)
      simp only [Prod.mk.injEq, true_and]
      rw [h1]
      ring
    have hmapl : lres.map (fun d => (d, (0:Rat) * scoreIn vres d + (1 - 0) * scoreIn lres d))
        = lres.map (fun d => (d, d.relevanceScore)) := by
      refine List.map_congr_left (fun d hd => ?_)
      have h1 : scoreIn lres d = d.metadata.score.getD 0 := scoreIn_mem lres d hd hlids
      simp only [Prod.mk.injEq, true_and]
      rw [h1, Document.relevanceScore]
      ring
    rw [hmapv, hmapl, stableSortDescBy_zeros_pos]
    · rw [List.map_append, map_fst_map_pair, map_fst_map_pair]
    · intro z hz
      rcases List.mem_map.mp hz with ⟨d, hd, rfl⟩
      rfl
    · rw [List.pairwise_map]
      exact hldesc
    · intro p hp
      rcases List.mem_map.mp hp with ⟨d, hd, rfl⟩
      exact hl0 d hd

/-- Witness for C1's amended theorem at concrete instances (both weight
extremes). -/
theorem hybrid_fusion_weight_extremes_amended_witness :
    hybridModeRun { hybrid_alpha := 1, reranker_type := "plain" } 2
        [{ page_content := "A", metadata := { source := some "s1", score := some 9 } }]
        [{ page_content := "B", metadata := { source := some "s2", score := some 8 } }]
      = (vectorModeRun { hybrid_alpha := 1, reranker_type := "plain" } "q" [] (fun _ _ => 0)
          [{ page_content := "A", metadata := { source := some "s1", score := some 9 } }]
        ++ ([{ page_content := "B", metadata := { source := some "s2", score := some 8 } }] : List Document)).take 2
    ∧ hybridModeRun { hybrid_alpha := 0, reranker_type := "plain" } 2
        [{ page_content := "A", metadata := { source := some "s1", score := some 9 } }]
        [{ page_content := "B", metadata := { source := some "s2", score := some 8 } }]
      = (([{ page_content := "B", metadata := { source := some "s2", score := some 8 } }] : List Document)
        ++ vectorModeRun { hybrid_alpha := 0, reranker_type := "plain" } "q" [] (fun _ _ => 0)
          [{ page_content := "A", metadata := { source := some "s1", score := some 9 } }]).take 2 :=
  ⟨(hybrid_fusion_weight_extremes_amended { hybrid_alpha := 1, reranker_type := "plain" }
      "q" [] (fun _ _ => 0) 2
      [{ page_content := "A", metadata := { source := some "s1", score := some 9 } }]
      [{ page_content := "B", metadata := { source := some "s2", score := some 8 } }]
      (by simp [docId]) (by simp) (by norm_num [Document.relevanceScore])
      (by simp) (by norm_num [Document.relevanceScore]) (by decide) (by decide)).1 rfl,
   (hybrid_fusion_weight_extremes_amended { hybrid_alpha := 0, reranker_type := "plain" }
      "q" [] (fun _ _ => 0) 2
      [{ page_content := "A", metadata := { source := some "s1", score := some 9 } }]
      [{ page_content := "B", metadata := { source := some "s2", score := some 8 } }]
      (by simp [docId]) (by simp) (by norm_num [Document.relevanceScore])
      (by simp) (by norm_num [Document.relevanceScore]) (by decide) (by decide)).2 rfl⟩
